import Mathlib

/-!
# Verification of the document-automation extraction pipeline

Shallow embedding of the multi-strategy field-extraction pipeline of the
`document-automation` repository (files `src/models.py`, `src/app.py`,
`src/extractors/passport_extractor.py`, `src/extractors/g28_extractor.py`,
`src/extractors/llm_passport_extractor.py`).

Conventions of the embedding:
* Python `Optional[str]` fields become `Option String`; Python truthiness
  (`if x:` where both `None` and `""` are falsy) is modelled by `truthy`.
* External collaborators (the OCR engine, the `mrz` TD3 checker, the PDF
  form-field reader, the OpenAI client, the spaCy NER) are oracles passed in
  as parameters; a Python exception raised by a collaborator is modelled by
  the corresponding `Option` being `none`.
* Confidence scores are rationals (the Python floats involved, 0.95, 0.7,
  0.5, 0.3, 0.0 and quarters/halves from `_calculate_confidence`, are all
  exactly representable, so no float rounding is lost).
-/

/-- Emptiness of a string, via its character list (what Python's length-zero
falsiness tests). -/
def strEmpty (s : String) : Bool := s.data.isEmpty

/-- Python `c in s` character membership, via the character list. -/
def strContains (s : String) (c : Char) : Bool := s.data.contains c

/-- Python `str.upper()` (ASCII domain), via the character list. -/
def strUpper (s : String) : String := ⟨s.data.map Char.toUpper⟩

/-- Python `str.lower()` (ASCII domain), via the character list. -/
def strLower (s : String) : String := ⟨s.data.map Char.toLower⟩

/-- Python `str.strip()`: drop whitespace from both ends. -/
def strTrim (s : String) : String :=
  ⟨((s.data.dropWhile Char.isWhitespace).reverse.dropWhile
    Char.isWhitespace).reverse⟩

/-- Python `s[:n]`, via the character list. -/
def strTake (s : String) (n : ℕ) : String := ⟨s.data.take n⟩

/-- Python `str.split(sep)` for a one-character separator: no collapsing of
adjacent separators, empty parts kept. -/
def splitOnChar (sep : Char) : List Char → List (List Char)
  | [] => [[]]
  | c :: rest =>
    match splitOnChar sep rest with
    | [] => [[c]]
    | g :: gs => if c = sep then [] :: g :: gs else (c :: g) :: gs

/-- Python truthiness of an `Optional[str]`: `None` and `""` are falsy. -/
def truthy : Option String → Bool
  | none => false
  | some s => !strEmpty s

/-- `models.PassportData` (src/models.py lines 6-20). -/
structure PassportData where
  last_name : Option String := none
  first_name : Option String := none
  middle_name : Option String := none
  passport_number : Option String := none
  country_of_issue : Option String := none
  nationality : Option String := none
  date_of_birth : Option String := none
  place_of_birth : Option String := none
  sex : Option String := none
  date_of_issue : Option String := none
  date_of_expiration : Option String := none
  extraction_method : Option String := none
  confidence_score : Option ℚ := none
deriving DecidableEq, Repr

/-- `models.AttorneyData` (src/models.py lines 23-42). -/
structure AttorneyData where
  last_name : Option String := none
  first_name : Option String := none
  middle_name : Option String := none
  street_address : Option String := none
  apt_ste_flr : Option String := none
  city : Option String := none
  state : Option String := none
  zip_code : Option String := none
  country : Option String := none
  daytime_phone : Option String := none
  mobile_phone : Option String := none
  email : Option String := none
  licensing_authority : Option String := none
  bar_number : Option String := none
  law_firm_name : Option String := none
  online_account_number : Option String := none
  extraction_method : Option String := none
  confidence_score : Option ℚ := none
deriving DecidableEq, Repr

/-- `models.US_STATES` (src/models.py lines 53-80): state name/abbreviation
(lower case) to 2-letter code. -/
def US_STATES : List (String × String) := [
  ("alabama", "AL"), ("al", "AL"), ("alaska", "AK"), ("ak", "AK"),
  ("arizona", "AZ"), ("az", "AZ"), ("arkansas", "AR"), ("ar", "AR"),
  ("california", "CA"), ("ca", "CA"), ("colorado", "CO"), ("co", "CO"),
  ("connecticut", "CT"), ("ct", "CT"), ("delaware", "DE"), ("de", "DE"),
  ("district of columbia", "DC"), ("dc", "DC"), ("florida", "FL"), ("fl", "FL"),
  ("georgia", "GA"), ("ga", "GA"), ("hawaii", "HI"), ("hi", "HI"),
  ("idaho", "ID"), ("id", "ID"), ("illinois", "IL"), ("il", "IL"),
  ("indiana", "IN"), ("in", "IN"), ("iowa", "IA"), ("ia", "IA"),
  ("kansas", "KS"), ("ks", "KS"), ("kentucky", "KY"), ("ky", "KY"),
  ("louisiana", "LA"), ("la", "LA"), ("maine", "ME"), ("me", "ME"),
  ("maryland", "MD"), ("md", "MD"), ("massachusetts", "MA"), ("ma", "MA"),
  ("michigan", "MI"), ("mi", "MI"), ("minnesota", "MN"), ("mn", "MN"),
  ("mississippi", "MS"), ("ms", "MS"), ("missouri", "MO"), ("mo", "MO"),
  ("montana", "MT"), ("mt", "MT"), ("nebraska", "NE"), ("ne", "NE"),
  ("nevada", "NV"), ("nv", "NV"), ("new hampshire", "NH"), ("nh", "NH"),
  ("new jersey", "NJ"), ("nj", "NJ"), ("new mexico", "NM"), ("nm", "NM"),
  ("new york", "NY"), ("ny", "NY"), ("north carolina", "NC"), ("nc", "NC"),
  ("north dakota", "ND"), ("nd", "ND"), ("ohio", "OH"), ("oh", "OH"),
  ("oklahoma", "OK"), ("ok", "OK"), ("oregon", "OR"), ("or", "OR"),
  ("pennsylvania", "PA"), ("pa", "PA"), ("rhode island", "RI"), ("ri", "RI"),
  ("south carolina", "SC"), ("sc", "SC"), ("south dakota", "SD"), ("sd", "SD"),
  ("tennessee", "TN"), ("tn", "TN"), ("texas", "TX"), ("tx", "TX"),
  ("utah", "UT"), ("ut", "UT"), ("vermont", "VT"), ("vt", "VT"),
  ("virginia", "VA"), ("va", "VA"), ("washington", "WA"), ("wa", "WA"),
  ("west virginia", "WV"), ("wv", "WV"), ("wisconsin", "WI"), ("wi", "WI"),
  ("wyoming", "WY"), ("wy", "WY")]

/-- `models.normalize_state` (src/models.py lines 83-87):
`if not state_str: return None` (Python falsy: `None` or `""`), then
`US_STATES.get(state_str.lower().strip(), state_str.upper()[:2])`. -/
def normalize_state : Option String → Option String
  | none => none
  | some s =>
    if strEmpty s then none
    else
      match (US_STATES.lookup (strTrim (strLower s))) with
      | some code => some code
      | none => some (strTake (strUpper s) 2)

/-- The final step of `G28Extractor._extract_from_text`
(src/extractors/g28_extractor.py lines 201-202):
`if not data.country and data.state: data.country = "United States"`. -/
def inferCountry (d : AttorneyData) : AttorneyData :=
  if !truthy d.country && truthy d.state then
    { d with country := some "United States" }
  else d

/-- The beneficiary-merge block of `app.upload_g28` (src/app.py lines
130-140): given the stored passport record (possibly absent) and a
beneficiary-derived record, the passport record to store. -/
def mergeBeneficiary (existing : Option PassportData) (ben : PassportData) :
    PassportData :=
  match existing with
  | none => ben
  | some e =>
    { e with
      last_name := if truthy e.last_name then e.last_name else ben.last_name,
      first_name := if truthy e.first_name then e.first_name else ben.first_name,
      middle_name := if truthy e.middle_name then e.middle_name else ben.middle_name }

/-! ## MRZ locator (`PassportExtractor._find_mrz_lines`, passport_extractor.py
lines 123-140) -/

/-- Membership in the MRZ alphabet `A-Z`, `0-9`, `<` (the character class of
the pattern `^[A-Z0-9<]{40,50}$` and of `re.sub(r'[^A-Z0-9<]', '', ...)`). -/
def isMrzChar (c : Char) : Bool :=
  ('A' ≤ c && c ≤ 'Z') || ('0' ≤ c && c ≤ '9') || c = '<'

/-- The look-alike filler repair `replace('«', '<').replace('‹', '<')`
(passport_extractor.py line 130). -/
def mrzGlyph (c : Char) : Char :=
  if c = '«' || c = '‹' then '<' else c

/-- Line cleaning of `_find_mrz_lines` (lines 130-131): strip spaces, map
look-alike glyphs to the filler `<`, drop everything outside the MRZ
alphabet. -/
def cleanMrzLine (l : List Char) : List Char :=
  ((l.filter (fun c => c ≠ ' ')).map mrzGlyph).filter isMrzChar

/-- The candidate test of `_find_mrz_lines` (line 133):
`mrz_pattern.match(cleaned) and 42 <= len(cleaned) <= 46` where
`mrz_pattern = r'^[A-Z0-9<]{40,50}$'`. -/
def isMrzCandidate (cs : List Char) : Bool :=
  (cs.all isMrzChar && 40 ≤ cs.length && cs.length ≤ 50)
    && (42 ≤ cs.length && cs.length ≤ 46)

/-- Candidate normalization of `_find_mrz_lines` (lines 134-137): right-pad
with `<` to 44 characters if shorter, truncate to 44 if longer. -/
def normalizeMrzCandidate (cs : List Char) : List Char :=
  if cs.length < 44 then cs ++ List.replicate (44 - cs.length) '<'
  else if cs.length > 44 then cs.take 44
  else cs

/-- The candidate list accumulated by `_find_mrz_lines` (lines 125-138):
lines of `text.upper()`, cleaned, kept when they pass the candidate test,
stored in normalized form, in document order. -/
def mrzCandidates (text : String) : List (List Char) :=
  (splitOnChar '\n' (strUpper text).data).filterMap fun line =>
    let cleaned := cleanMrzLine line
    if isMrzCandidate cleaned then some (normalizeMrzCandidate cleaned) else none

/-- `PassportExtractor._find_mrz_lines` (line 140): the first two candidates
in document order, or `None` when fewer than two exist. -/
def findMrzLines (text : String) : Option (List Char × List Char) :=
  match mrzCandidates text with
  | c1 :: c2 :: _ => some (c1, c2)
  | _ => none

/-! ## MRZ date parsing (`PassportExtractor._parse_mrz_date`,
passport_extractor.py lines 163-173) -/

/-- Value of a list of decimal digit characters, most significant first
(what Python's `int` returns on an all-digit string). -/
def digitsVal (cs : List Char) : ℕ :=
  cs.foldl (fun acc c => 10 * acc + (c.toNat - 48)) 0

/-- Python `int(s)` on the strings this extractor can feed it. The argument
characters come from OCR text produced under the tesseract whitelist
`A-Z0-9<` (passport_extractor.py line 180) via the TD3 field splitter, so
over this domain `int` succeeds exactly on (nonempty) all-digit strings;
any other character raises, which the caller's `except` turns into `None`. -/
def pyInt (cs : List Char) : Option ℕ :=
  if cs ≠ [] ∧ cs.all Char.isDigit then some (digitsVal cs) else none

/-- Zero-padded 2-digit rendering, Python `f"{n:02d}"` for `n < 100`. -/
def pad2 (n : ℕ) : String :=
  if n < 10 then "0" ++ toString n else toString n

/-- Zero-padded 4-digit rendering, Python `f"{n:04d}"` for `1000 ≤ n`. -/
def pad4 (n : ℕ) : String := toString n

/-- `PassportExtractor._parse_mrz_date` (lines 163-173): guard
`not date_str or len(date_str) < 6`, split into `yy`, `mm`, `dd`, resolve
the century against `pivot = datetime.now().year % 100` (the current year is
the explicit first argument here), format `f"{year:04d}-{mm:02d}-{dd:02d}"`;
any parse failure is caught and yields `None`. -/
def parseMrzDate (currentYear : ℕ) (s : String) : Option String :=
  if s.data.length < 6 then none
  else
    match pyInt (s.data.take 2) with
    | none => none
    | some yy =>
      match pyInt ((s.data.drop 2).take 2) with
      | none => none
      | some mm =>
        match pyInt ((s.data.drop 4).take 2) with
        | none => none
        | some dd =>
          let pivot := currentYear % 100
          let year := if pivot + 10 < yy then 1900 + yy else 2000 + yy
          some (pad4 year ++ "-" ++ pad2 mm ++ "-" ++ pad2 dd)

/-! ## LLM passport extraction (`LLMPassportExtractor.extract`,
llm_passport_extractor.py lines 58-91) and the passport orchestrator
(`PassportExtractor.extract`, passport_extractor.py lines 49-79) -/

/-- `LLMPassportExtractor.extract` (llm_passport_extractor.py lines 58-91).
Oracles: `client_ok` is `bool(self.client)` (OpenAI importable and key
present), `image_b64` the prepared image (`None` on `_prepare_image`
failure), `api_response` the chat-completion text (`None` when the API call
raises), and `parse` models `_parse_response` (`none` when JSON parsing or
record validation fails). On a parsed record the method `"LLM_OPENAI"` and
the fixed confidence 0.95 are attached. -/
def llmExtract (client_ok : Bool) (image_b64 : Option String)
    (api_response : Option String) (parse : String → Option PassportData) :
    Option PassportData :=
  if !client_ok then none
  else match image_b64 with
    | none => none
    | some _ =>
      match api_response with
      | none => none
      | some text =>
        match parse text with
        | none => none
        | some r =>
          some { r with extraction_method := some "LLM_OPENAI",
                        confidence_score := some (19/20 : ℚ) }

/-- The spec's canonical tag `LLM_VISION` for the vision-LLM strategy; the
source spells this provenance tag `"LLM_OPENAI"`
(llm_passport_extractor.py line 85). -/
def LLM_VISION : String := "LLM_OPENAI"

/-- The spec's canonical tag `OCR_PATTERN` for the OCR pattern-matching
strategy; the source spells this provenance tag `"OCR+NLP"`
(passport_extractor.py line 75, g28_extractor.py line 37; the spec's §4.4
notes the source naming and picks `OCR_PATTERN` as the one consistent
name). -/
def OCR_PATTERN : String := "OCR+NLP"

/-- The LLM stage of `PassportExtractor.extract` (passport_extractor.py
lines 51-61): when `use_llm` and `is_llm_available()` (the API key is set),
run the LLM extractor and accept its record when it carries a (truthy)
passport number or last name; every failure path (exception, `None`, guard
failure) yields `none` and the orchestrator falls through. -/
def passportLlmStage (use_llm api_key_set : Bool) (client_ok : Bool)
    (image_b64 : Option String) (api_response : Option String)
    (parse : String → Option PassportData) : Option PassportData :=
  if use_llm && api_key_set then
    match llmExtract client_ok image_b64 api_response parse with
    | some r =>
      if truthy r.passport_number || truthy r.last_name then some r else none
    | none => none
  else none

/-- `PassportExtractor._extract_via_ocr` (passport_extractor.py lines
186-202): `tesseract_ok` models the `import pytesseract` guard; `pages` the
per-image OCR text (`none` when `image_to_string` raises); `ext` models
`_extract_from_text` (regex + NER oracle). The first page whose text has at
least 50 characters and whose extracted record has a truthy passport number
or last name wins. -/
def extractViaOcr (tesseract_ok : Bool) (ext : String → PassportData) :
    List (Option String) → Option PassportData
  | [] => none
  | t? :: rest =>
    if !tesseract_ok then none
    else
      match t? with
      | some text =>
        if 50 ≤ text.length then
          let d := ext text
          if truthy d.passport_number || truthy d.last_name then some d
          else extractViaOcr tesseract_ok ext rest
        else extractViaOcr tesseract_ok ext rest
      | none => extractViaOcr tesseract_ok ext rest

/-- The empty `FAILED` passport record of `PassportExtractor.extract`
(line 79). -/
def failedPassport : PassportData :=
  { extraction_method := some "FAILED", confidence_score := some (0 : ℚ) }

/-- The MRZ and OCR stages of `PassportExtractor.extract`
(passport_extractor.py lines 63-79): accept the MRZ record when it has a
truthy passport number (attaching method `"MRZ"` and confidence 0.95), else
the OCR fallback (attaching method `"OCR+NLP"` and confidence 0.7), else
the `FAILED` record. `mrz_data` models `_extract_mrz(images)` (`none` on a
failed library load, no validated MRZ, or an exception). -/
def passportPostLlm (mrz_data : Option PassportData) (tesseract_ok : Bool)
    (ext : String → PassportData) (pages : List (Option String)) :
    PassportData :=
  match mrz_data with
  | some m =>
    if truthy m.passport_number then
      { m with extraction_method := some "MRZ", confidence_score := some (19/20 : ℚ) }
    else
      match extractViaOcr tesseract_ok ext pages with
      | some d =>
        { d with extraction_method := some "OCR+NLP", confidence_score := some (7/10 : ℚ) }
      | none => failedPassport
  | none =>
    match extractViaOcr tesseract_ok ext pages with
    | some d =>
      { d with extraction_method := some "OCR+NLP", confidence_score := some (7/10 : ℚ) }
    | none => failedPassport

/-- `PassportExtractor.extract` (passport_extractor.py lines 49-79): LLM
stage first, then MRZ, then OCR, then `FAILED`. -/
def passportExtract (use_llm api_key_set client_ok : Bool)
    (image_b64 : Option String) (api_response : Option String)
    (parse : String → Option PassportData) (mrz_data : Option PassportData)
    (tesseract_ok : Bool) (ext : String → PassportData)
    (pages : List (Option String)) : PassportData :=
  match passportLlmStage use_llm api_key_set client_ok image_b64 api_response parse with
  | some r => r
  | none => passportPostLlm mrz_data tesseract_ok ext pages

/-! ## G-28 extraction (`G28Extractor`, g28_extractor.py) -/

/-- `G28Extractor._calculate_confidence` (g28_extractor.py lines 206-214):
required = {last_name, first_name}, important = {street_address, city,
state, email}; score = min(1, required-fraction * 0.5 +
important-fraction * 0.5), field presence by Python truthiness. -/
def calculateConfidence (d : AttorneyData) : ℚ :=
  let req : ℚ := (if truthy d.last_name then 1 else 0)
    + (if truthy d.first_name then 1 else 0)
  let imp : ℚ := (if truthy d.street_address then 1 else 0)
    + (if truthy d.city then 1 else 0)
    + (if truthy d.state then 1 else 0)
    + (if truthy d.email then 1 else 0)
  min 1 (req / 2 * (1/2) + imp / 4 * (1/2))

/-- One key probe of the form-field mapping loop (g28_extractor.py lines
84-88): the value at `key` is used when it is truthy, its strip is truthy,
and its strip upper-cased is not `'N/A'`; the stripped value is stored. -/
def formFieldAt (ff : String → Option String) (key : String) : Option String :=
  match ff key with
  | some v =>
    if !strEmpty v && !strEmpty (strTrim v) && strUpper (strTrim v) != "N/A" then
      some (strTrim v)
    else none
  | none => none

/-- The inner key loop of the mapping (g28_extractor.py line 83): try the
field name, then its lower-cased form, first acceptable value wins (the
`break` fires only after a successful `setattr`). -/
def formFieldValue (ff : String → Option String) (name : String) :
    Option String :=
  match formFieldAt ff name with
  | some v => some v
  | none => formFieldAt ff (strLower name)

/-- The attorney half of the mapping table of `_extract_pdf_form_fields`
(g28_extractor.py lines 63-88), before the mobile-phone/email repair. -/
def attorneyFromFormFields (ff : String → Option String) : AttorneyData :=
  { last_name := formFieldValue ff "Pt1Line2a_FamilyName[0]",
    first_name := formFieldValue ff "Pt1Line2b_GivenName[0]",
    middle_name := formFieldValue ff "Pt1Line2c_MiddleName[0]",
    street_address := formFieldValue ff "Line3a_StreetNumber[0]",
    apt_ste_flr := formFieldValue ff "Line3b_AptSteFlrNumber[0]",
    city := formFieldValue ff "Line3c_CityOrTown[0]",
    state := formFieldValue ff "Line3d_State[0]",
    zip_code := formFieldValue ff "Line3e_ZipCode[0]",
    country := formFieldValue ff "Line3h_Country[0]",
    daytime_phone := formFieldValue ff "Line4_DaytimeTelephoneNumber[0]",
    mobile_phone := formFieldValue ff "Line7_MobileTelephoneNumber[0]",
    email := formFieldValue ff "Line6_EMail[0]",
    bar_number := formFieldValue ff "Pt2Line1b_BarNumber[0]",
    licensing_authority := formFieldValue ff "Pt2Line1a_LicensingAuthority[0]",
    law_firm_name := formFieldValue ff "Pt2Line1d_NameofFirmOrOrganization[0]" }

/-- The mobile-phone/email repair of `_extract_pdf_form_fields`
(g28_extractor.py lines 90-94): when the mobile-phone value is truthy and
contains `'@'`, copy it to email only if email is not already truthy, and
clear mobile-phone unconditionally. -/
def repairMobileEmail (d : AttorneyData) : AttorneyData :=
  match d.mobile_phone with
  | some m =>
    if !strEmpty m && strContains m '@' then
      { d with email := if truthy d.email then d.email else some m,
               mobile_phone := none }
    else d
  | none => d

/-- The beneficiary half of the mapping table of `_extract_pdf_form_fields`
(g28_extractor.py lines 96-109). -/
def beneficiaryFromFormFields (ff : String → Option String) : PassportData :=
  { last_name := formFieldValue ff "Pt3Line5a_FamilyName[0]",
    first_name := formFieldValue ff "Pt3Line5b_GivenName[0]",
    middle_name := formFieldValue ff "Pt3Line5c_MiddleName[0]" }

/-- `G28Extractor._extract_pdf_form_fields` (g28_extractor.py lines 43-122)
on a successfully read, nonempty form-field dictionary `ff` (the fitz
widget walk is the oracle; an exception or an empty dictionary is the
`none` case at the orchestrator). Attorney mapping, repair, beneficiary
mapping with its provenance pair (method `"G28_BENEFICIARY"`, confidence
0.5, only when a name is present), then the attorney confidence score. -/
def extractPdfFormFields (ff : String → Option String) :
    AttorneyData × Option PassportData :=
  let data := repairMobileEmail (attorneyFromFormFields ff)
  let ben0 := beneficiaryFromFormFields ff
  let ben : Option PassportData :=
    if truthy ben0.last_name || truthy ben0.first_name then
      some { ben0 with extraction_method := some "G28_BENEFICIARY",
                       confidence_score := some (1/2 : ℚ) }
    else none
  ({ data with confidence_score := some (calculateConfidence data) }, ben)

/-- The OCR text accumulation of `G28Extractor.extract` (g28_extractor.py
lines 28-33): concatenate each page's truthy OCR text followed by a
newline. -/
def buildFullText (pages : List (Option String)) : String :=
  pages.foldl (fun acc t? =>
    match t? with
    | some t => if strEmpty t then acc else acc ++ t ++ "\n"
    | none => acc) ""

/-- The empty `FAILED` attorney record of `G28Extractor.extract`
(line 41). -/
def failedAttorney : AttorneyData :=
  { extraction_method := some "FAILED", confidence_score := some (0 : ℚ) }

/-- The OCR fallback of `G28Extractor.extract` (g28_extractor.py lines
27-41): when the accumulated text is truthy, return the pattern-extracted
record with method `"OCR+NLP"` and its computed confidence score — with no
threshold test; only an empty text yields the `FAILED` record. `ext` models
`_extract_from_text`. -/
def g28OcrStage (pages : List (Option String)) (ext : String → AttorneyData) :
    AttorneyData × Option PassportData :=
  let fullText := buildFullText pages
  if strEmpty fullText then (failedAttorney, none)
  else
    let d := ext fullText
    ({ d with extraction_method := some "OCR+NLP",
              confidence_score := some (calculateConfidence d) }, none)

/-- The PDF form-field stage of `G28Extractor.extract` (g28_extractor.py
lines 21-22): only attempted for a `.pdf` input; `form_fields` is `none`
when the fitz read raised or the widget dictionary was empty (source lines
57-58 and 120-122). -/
def g28PdfStage (is_pdf : Bool)
    (form_fields : Option (String → Option String)) :
    Option (AttorneyData × Option PassportData) :=
  if is_pdf then form_fields.map extractPdfFormFields else none

/-- `G28Extractor.extract` (g28_extractor.py lines 18-41): for a `.pdf`
input with a readable, nonempty form-field dictionary, accept the
form-field result only when its recomputed confidence strictly exceeds 0.3
(attaching method `"PDF_FORM_FIELDS"`); otherwise fall through to the OCR
stage. -/
def g28Extract (is_pdf : Bool) (form_fields : Option (String → Option String))
    (pages : List (Option String)) (ext : String → AttorneyData) :
    AttorneyData × Option PassportData :=
  match g28PdfStage is_pdf form_fields with
  | some (fd, ben) =>
    if calculateConfidence fd > (3/10 : ℚ) then
      ({ fd with extraction_method := some "PDF_FORM_FIELDS" }, ben)
    else g28OcrStage pages ext
  | none => g28OcrStage pages ext

/-- A sample fillable G-28 whose attorney family and given names are the
only populated fields. -/
def g28SampleForm : String → Option String := fun k =>
  if k = "Pt1Line2a_FamilyName[0]" then some "Silva"
  else if k = "Pt1Line2b_GivenName[0]" then some "Ana" else none

/-- A sample fillable G-28 carrying attorney names and a beneficiary family
name. -/
def g28SampleFormBen : String → Option String := fun k =>
  if k = "Pt1Line2a_FamilyName[0]" then some "Silva"
  else if k = "Pt1Line2b_GivenName[0]" then some "Ana"
  else if k = "Pt3Line5a_FamilyName[0]" then some "Doe" else none

/-! ## Theorems -/

/-- C2: cross-document merge policy. When a passport record already exists
for the session, each of last/first/middle name is copied from the
beneficiary-derived record only if the existing field is unset (Python
falsy); a populated field is never overwritten; every other field of the
existing record is unchanged by the merge. When no passport record exists,
the beneficiary-derived record is stored as-is. -/
theorem merge_policy_preserves_existing (e ben : PassportData) :
    mergeBeneficiary none ben = ben ∧
    (truthy e.last_name = true →
      (mergeBeneficiary (some e) ben).last_name = e.last_name) ∧
    (truthy e.last_name = false →
      (mergeBeneficiary (some e) ben).last_name = ben.last_name) ∧
    (truthy e.first_name = true →
      (mergeBeneficiary (some e) ben).first_name = e.first_name) ∧
    (truthy e.first_name = false →
      (mergeBeneficiary (some e) ben).first_name = ben.first_name) ∧
    (truthy e.middle_name = true →
      (mergeBeneficiary (some e) ben).middle_name = e.middle_name) ∧
    (truthy e.middle_name = false →
      (mergeBeneficiary (some e) ben).middle_name = ben.middle_name) ∧
    (mergeBeneficiary (some e) ben).passport_number = e.passport_number ∧
    (mergeBeneficiary (some e) ben).country_of_issue = e.country_of_issue ∧
    (mergeBeneficiary (some e) ben).nationality = e.nationality ∧
    (mergeBeneficiary (some e) ben).date_of_birth = e.date_of_birth ∧
    (mergeBeneficiary (some e) ben).place_of_birth = e.place_of_birth ∧
    (mergeBeneficiary (some e) ben).sex = e.sex ∧
    (mergeBeneficiary (some e) ben).date_of_issue = e.date_of_issue ∧
    (mergeBeneficiary (some e) ben).date_of_expiration = e.date_of_expiration ∧
    (mergeBeneficiary (some e) ben).extraction_method = e.extraction_method ∧
    (mergeBeneficiary (some e) ben).confidence_score = e.confidence_score := by
  refine ⟨rfl, ?_, ?_, ?_, ?_, ?_, ?_, rfl, rfl, rfl, rfl, rfl, rfl, rfl, rfl, rfl, rfl⟩ <;>
    intro h <;> simp [mergeBeneficiary, h]

/-- Witness for C2: the spec's own example. Existing record has
`first_name = "Ana"`, `last_name` unset; beneficiary has
`first_name = "Maria"`, `last_name = "Silva"`; the merge keeps `"Ana"` and
fills `"Silva"`, and leaves the passport number of the existing record
alone. -/
theorem merge_policy_preserves_existing_witness :
    (mergeBeneficiary
      (some { first_name := some "Ana", passport_number := some "P123" })
      { first_name := some "Maria", last_name := some "Silva" }).first_name
        = some "Ana" ∧
    (mergeBeneficiary
      (some { first_name := some "Ana", passport_number := some "P123" })
      { first_name := some "Maria", last_name := some "Silva" }).last_name
        = some "Silva" ∧
    (mergeBeneficiary
      (some { first_name := some "Ana", passport_number := some "P123" })
      { first_name := some "Maria", last_name := some "Silva" }).passport_number
        = some "P123" := by
  have h := merge_policy_preserves_existing
    { first_name := some "Ana", passport_number := some "P123" }
    { first_name := some "Maria", last_name := some "Silva" }
  exact ⟨h.2.2.2.1 (by decide), h.2.2.1 (by decide), h.2.2.2.2.2.2.2.1⟩

/-- C10: `normalize_state` is total and lossy on unknown inputs. `None` and
the empty string normalize to `None`; any nonempty string whose lowercased,
trimmed form is not a key of `US_STATES` normalizes to the first two
characters of its uppercase form (never `None`); and the country-inference
step of `G28Extractor._extract_from_text` fires for any truthy state value,
recognized US code or not. -/
theorem normalize_state_total_lossy (s : String) (d : AttorneyData) :
    normalize_state none = none ∧
    normalize_state (some "") = none ∧
    (strEmpty s = false → US_STATES.lookup (strTrim (strLower s)) = none →
      normalize_state (some s) = some (strTake (strUpper s) 2)) ∧
    (truthy d.country = false → truthy d.state = true →
      (inferCountry d).country = some "United States") := by
  refine ⟨rfl, rfl, ?_, ?_⟩
  · intro h1 h2
    simp [normalize_state, h1, h2]
  · intro h1 h2
    simp [inferCountry, h1, h2]

/-- Witness for C10: `"Zz"` is not a US state, yet it normalizes to the
non-`None` value `"ZZ"`, and a record with `state = "ZZ"` and no country
gets country `"United States"` inferred. -/
theorem normalize_state_total_lossy_witness :
    normalize_state (some "Zz") = some "ZZ" ∧
    (inferCountry { state := some "ZZ" } : AttorneyData).country
      = some "United States" := by
  have h := normalize_state_total_lossy "Zz" { state := some "ZZ" }
  exact ⟨(h.2.2.1 (by decide) (by decide)).trans (by decide),
    h.2.2.2 (by decide) (by decide)⟩

/-- `pyInt` on a two-character slice, in closed form. -/
theorem pyInt_two (x y : Char) :
    pyInt [x, y] =
      if (x.isDigit && y.isDigit) = true then some (digitsVal [x, y])
      else none := by
  cases hx : x.isDigit <;> cases hy : y.isDigit <;> simp [pyInt, hx, hy]

/-- `parseMrzDate` on a six-character string, reduced to its three
two-character slices. -/
theorem parseMrzDate_data (cy : ℕ) (s : String) (a b c d e f : Char)
    (hdata : s.data = [a, b, c, d, e, f]) :
    parseMrzDate cy s =
      match pyInt [a, b] with
      | none => none
      | some yy =>
        match pyInt [c, d] with
        | none => none
        | some mm =>
          match pyInt [e, f] with
          | none => none
          | some dd =>
            some (pad4 (if cy % 100 + 10 < yy then 1900 + yy else 2000 + yy)
              ++ "-" ++ pad2 mm ++ "-" ++ pad2 dd) := by
  simp [parseMrzDate, hdata]

/-- C4: MRZ date disambiguation. A six-character all-digit `YYMMDD` string
parses with `pivot = currentYear mod 100` to year `1900 + yy` exactly when
`yy > pivot + 10` and to `2000 + yy` otherwise (so the boundary
`yy = pivot + 10` lands in the 2000s branch), formatted `YYYY-MM-DD`; a
string shorter than six characters, or one with a non-digit year, month or
day slice, yields `none` rather than an error. -/
theorem parse_mrz_date_disambiguation (cy : ℕ) (s : String)
    (a b c d e f : Char) :
    (s.data.length < 6 → parseMrzDate cy s = none) ∧
    (s.data = [a, b, c, d, e, f] →
      ((a.isDigit && b.isDigit && c.isDigit && d.isDigit && e.isDigit
          && f.isDigit) = true →
        parseMrzDate cy s =
          some (pad4 (if cy % 100 + 10 < digitsVal [a, b]
                then 1900 + digitsVal [a, b] else 2000 + digitsVal [a, b])
            ++ "-" ++ pad2 (digitsVal [c, d]) ++ "-"
            ++ pad2 (digitsVal [e, f]))) ∧
      (((a.isDigit && b.isDigit) = false ∨ (c.isDigit && d.isDigit) = false
          ∨ (e.isDigit && f.isDigit) = false) →
        parseMrzDate cy s = none)) := by
  refine ⟨?_, fun hdata => ⟨?_, ?_⟩⟩
  · intro h
    unfold parseMrzDate
    rw [if_pos h]
  · intro hdig
    simp only [Bool.and_eq_true] at hdig
    obtain ⟨⟨⟨⟨⟨ha, hb⟩, hc⟩, hd⟩, he⟩, hf⟩ := hdig
    rw [parseMrzDate_data cy s a b c d e f hdata, pyInt_two, pyInt_two,
      pyInt_two]
    simp [ha, hb, hc, hd, he, hf]
  · intro hbad
    rw [parseMrzDate_data cy s a b c d e f hdata, pyInt_two, pyInt_two,
      pyInt_two]
    rcases hbad with h | h | h
    · simp [h]
    · cases hab : (a.isDigit && b.isDigit) <;> simp [h]
    · cases hab : (a.isDigit && b.isDigit) <;>
        cases hcd : (c.isDigit && d.isDigit) <;> simp [h]

/-- Witness for C4: with current year 2024 (pivot 24), `"341231"` sits on
the boundary `yy = 34 = 24 + 10` and resolves to 2034; `"701231"` has
`70 > 34` and resolves to 1970; `"3A1231"` has a non-digit year slice and
yields `none`; `"12345"` is too short and yields `none`. -/
theorem parse_mrz_date_disambiguation_witness :
    parseMrzDate 2024 "341231" = some "2034-12-31" ∧
    parseMrzDate 2024 "701231" = some "1970-12-31" ∧
    parseMrzDate 2024 "3A1231" = none ∧
    parseMrzDate 2024 "12345" = none := by
  refine ⟨?_, ?_, ?_, ?_⟩
  · exact ((parse_mrz_date_disambiguation 2024 "341231" '3' '4' '1' '2' '3'
      '1').2 (by decide)).1 (by decide) |>.trans (by decide)
  · exact ((parse_mrz_date_disambiguation 2024 "701231" '7' '0' '1' '2' '3'
      '1').2 (by decide)).1 (by decide) |>.trans (by decide)
  · exact ((parse_mrz_date_disambiguation 2024 "3A1231" '3' 'A' '1' '2' '3'
      '1').2 (by decide)).2 (Or.inl (by decide))
  · exact (parse_mrz_date_disambiguation 2024 "12345" '0' '0' '0' '0' '0'
      '0').1 (by decide)

/-- C7: MRZ candidate normalization. Every candidate line (all characters
in the MRZ alphabet, cleaned length in [42, 46]) normalizes to exactly 44
characters; normalizing an already-44-character line returns it unchanged,
so the normalization is idempotent on candidates; and a text with fewer
than two candidate lines yields no MRZ line pair. -/
theorem mrz_normalization_idempotent (cs : List Char) (text : String) :
    (isMrzCandidate cs = true → (normalizeMrzCandidate cs).length = 44) ∧
    (cs.length = 44 → normalizeMrzCandidate cs = cs) ∧
    (isMrzCandidate cs = true →
      normalizeMrzCandidate (normalizeMrzCandidate cs)
        = normalizeMrzCandidate cs) ∧
    ((mrzCandidates text).length < 2 → findMrzLines text = none) := by
  have hid : ∀ l : List Char, l.length = 44 → normalizeMrzCandidate l = l := by
    intro l h
    simp [normalizeMrzCandidate, h]
  have hlen : isMrzCandidate cs = true →
      (normalizeMrzCandidate cs).length = 44 := by
    intro h
    simp only [isMrzCandidate, Bool.and_eq_true, decide_eq_true_eq] at h
    obtain ⟨-, h42, h46⟩ := h
    unfold normalizeMrzCandidate
    split_ifs with h1 h2
    · simp only [List.length_append, List.length_replicate]
      omega
    · simp only [List.length_take]
      omega
    · omega
  refine ⟨hlen, hid cs, fun h => hid _ (hlen h), ?_⟩
  intro h
  unfold findMrzLines
  rcases hc : mrzCandidates text with _ | ⟨c1, _ | ⟨c2, tl⟩⟩
  · rfl
  · rfl
  · rw [hc] at h
    simp at h
    omega

/-- Witness for C7: a 42-character candidate normalizes to length 44;
a 44-character filler line is returned unchanged; normalization is
idempotent on the 42-character candidate; `"HELLO"` contains no candidate
line, so no MRZ is found. -/
theorem mrz_normalization_idempotent_witness :
    (normalizeMrzCandidate (List.replicate 42 'A')).length = 44 ∧
    normalizeMrzCandidate (List.replicate 44 '<') = List.replicate 44 '<' ∧
    normalizeMrzCandidate (normalizeMrzCandidate (List.replicate 42 'A'))
      = normalizeMrzCandidate (List.replicate 42 'A') ∧
    findMrzLines "HELLO" = none := by
  refine ⟨(mrz_normalization_idempotent (List.replicate 42 'A') "HELLO").1
      (by decide),
    (mrz_normalization_idempotent (List.replicate 44 '<') "HELLO").2.1
      (by decide),
    (mrz_normalization_idempotent (List.replicate 42 'A') "HELLO").2.2.1
      (by decide),
    (mrz_normalization_idempotent (List.replicate 42 'A') "HELLO").2.2.2
      (by decide)⟩

/-- An empty string contains no character. -/
theorem strContains_of_strEmpty (s : String) (c : Char)
    (h : strEmpty s = true) : strContains s c = false := by
  unfold strEmpty at h
  unfold strContains
  rw [List.isEmpty_iff] at h
  rw [h]
  rfl

/-- A value accepted by the form-field mapping guard is nonempty (the guard
requires a truthy stripped value, g28_extractor.py line 86). -/
theorem formFieldAt_nonempty (ff : String → Option String) (k m : String)
    (h : formFieldAt ff k = some m) : strEmpty m = false := by
  cases hk : ff k
  · simp [formFieldAt, hk] at h
  · rename_i v
    simp only [formFieldAt, hk] at h
    by_cases hc : (!strEmpty v && !strEmpty (strTrim v)
        && strUpper (strTrim v) != "N/A") = true
    · rw [if_pos hc] at h
      obtain rfl : strTrim v = m := by injection h
      simp only [Bool.and_eq_true, Bool.not_eq_true'] at hc
      exact hc.1.2
    · rw [if_neg hc] at h
      exact absurd h (by simp)

/-- A field set by the mapping loop is nonempty. -/
theorem formFieldValue_nonempty (ff : String → Option String)
    (name m : String) (h : formFieldValue ff name = some m) :
    strEmpty m = false := by
  unfold formFieldValue at h
  cases h1 : formFieldAt ff name <;> rw [h1] at h
  · exact formFieldAt_nonempty ff (strLower name) m h
  · rename_i v
    injection h with h2
    exact formFieldAt_nonempty ff name m (by rw [h1, h2])

/-- After the repair of g28_extractor.py lines 90-94, the mobile-phone
field never holds a value containing `'@'`. -/
theorem repairMobileEmail_no_at (d : AttorneyData) (s : String)
    (h : (repairMobileEmail d).mobile_phone = some s) :
    strContains s '@' = false := by
  cases hm : d.mobile_phone
  · simp only [repairMobileEmail, hm] at h
    exact absurd h (by simp)
  · rename_i m
    simp only [repairMobileEmail, hm] at h
    by_cases hc : (!strEmpty m && strContains m '@') = true
    · rw [if_pos hc] at h
      exact absurd h (by simp)
    · rw [if_neg hc] at h
      rw [hm] at h
      obtain rfl : m = s := by injection h
      by_cases he : strEmpty m = true
      · exact strContains_of_strEmpty m '@' he
      · cases hcc : strContains m '@'
        · rfl
        · exact absurd (by simp [Bool.not_eq_true'] at he ⊢; exact ⟨he, hcc⟩)
            hc

/-- C5: mobile-phone/email repair at PDF form-field ingestion. A value
containing `'@'` never persists in the phone field of the returned attorney
record; and when the mapped mobile-phone value contains `'@'` and email is
unset, the value is relocated to email and mobile-phone is cleared. -/
theorem mobile_email_repair (ff : String → Option String) (m : String) :
    (∀ s, (extractPdfFormFields ff).1.mobile_phone = some s →
      strContains s '@' = false) ∧
    ((attorneyFromFormFields ff).mobile_phone = some m →
      strContains m '@' = true →
      truthy (attorneyFromFormFields ff).email = false →
      (extractPdfFormFields ff).1.email = some m ∧
      (extractPdfFormFields ff).1.mobile_phone = none) := by
  constructor
  · intro s h
    apply repairMobileEmail_no_at (attorneyFromFormFields ff) s
    simpa [extractPdfFormFields] using h
  · intro hm hat hemail
    have hne : strEmpty m = false :=
      formFieldValue_nonempty ff "Line7_MobileTelephoneNumber[0]" m hm
    have hrep : repairMobileEmail (attorneyFromFormFields ff) =
        { attorneyFromFormFields ff with
          email := some m, mobile_phone := none } := by
      simp only [repairMobileEmail, hm]
      rw [if_pos (by simp [hne, hat])]
      rw [hemail]
      simp
    constructor
    · simp [extractPdfFormFields, hrep]
    · simp [extractPdfFormFields, hrep]

/-- Witness for C5: the spec's example. A form whose mobile-phone field
holds `"jane@example.com"` and whose email field is absent yields
`email = "jane@example.com"` and `mobile_phone = None`. -/
theorem mobile_email_repair_witness :
    (extractPdfFormFields (fun k =>
      if k = "Line7_MobileTelephoneNumber[0]" then some "jane@example.com"
      else none)).1.email = some "jane@example.com" ∧
    (extractPdfFormFields (fun k =>
      if k = "Line7_MobileTelephoneNumber[0]" then some "jane@example.com"
      else none)).1.mobile_phone = none := by
  exact (mobile_email_repair (fun k =>
      if k = "Line7_MobileTelephoneNumber[0]" then some "jane@example.com"
      else none) "jane@example.com").2 (by decide) (by decide) (by decide)


/-- Any record the LLM extractor returns carries the `"LLM_OPENAI"` tag and
the fixed confidence 0.95 (llm_passport_extractor.py lines 84-87). -/
theorem llmExtract_provenance (co : Bool) (ib ar : Option String)
    (parse : String → Option PassportData) (r : PassportData)
    (h : llmExtract co ib ar parse = some r) :
    r.extraction_method = some "LLM_OPENAI" ∧
    r.confidence_score = some (19/20 : ℚ) := by
  cases co
  · simp [llmExtract] at h
  · cases ib with
    | none => simp [llmExtract] at h
    | some img =>
      cases ar with
      | none => simp [llmExtract] at h
      | some text =>
        cases hp : parse text with
        | none => simp [llmExtract, hp] at h
        | some r0 =>
          simp only [llmExtract, hp, Bool.not_true, Bool.false_eq_true,
            if_false] at h
          obtain rfl : _ = r := by injection h
          exact ⟨rfl, rfl⟩

/-- A record accepted by the orchestrator's LLM stage is exactly the LLM
extractor's record (passport_extractor.py lines 57-59). -/
theorem passportLlmStage_some (u a co : Bool) (ib ar : Option String)
    (p : String → Option PassportData) (r : PassportData)
    (h : passportLlmStage u a co ib ar p = some r) :
    llmExtract co ib ar p = some r := by
  unfold passportLlmStage at h
  by_cases hu : (u && a) = true
  · rw [if_pos hu] at h
    cases hl : llmExtract co ib ar p
    · simp only [hl] at h
      exact absurd h (by simp)
    · rename_i r0
      simp only [hl] at h
      by_cases hg : (truthy r0.passport_number || truthy r0.last_name) = true
      · rw [if_pos hg] at h
        exact h
      · rw [if_neg hg] at h
        exact absurd h (by simp)
  · rw [if_neg hu] at h
    exact absurd h (by simp)

/-- The passport orchestrator always sets method and confidence together. -/
theorem passportExtract_provenance_set (u a co : Bool) (ib ar : Option String)
    (p : String → Option PassportData) (mrz_data : Option PassportData)
    (tess : Bool) (ext : String → PassportData)
    (pages : List (Option String)) :
    (passportExtract u a co ib ar p mrz_data tess ext pages).extraction_method.isSome
      = true ∧
    (passportExtract u a co ib ar p mrz_data tess ext pages).confidence_score.isSome
      = true := by
  unfold passportExtract
  cases hs : passportLlmStage u a co ib ar p with
  | some r =>
    have h1 := llmExtract_provenance co ib ar p r
      (passportLlmStage_some u a co ib ar p r hs)
    simp [h1.1, h1.2]
  | none =>
    unfold passportPostLlm
    cases mrz_data with
    | some mz =>
      cases hm : truthy mz.passport_number
      · simp only [hm, Bool.false_eq_true, if_false]
        cases ho : extractViaOcr tess ext pages <;> simp [failedPassport]
      · simp [hm]
    | none =>
      cases ho : extractViaOcr tess ext pages <;> simp [failedPassport]

/-- Inversion of the PDF form-field stage: a produced pair comes from a
`.pdf` input with a readable form-field dictionary. -/
theorem g28PdfStage_inv (is_pdf : Bool)
    (ffo : Option (String → Option String)) (fd : AttorneyData)
    (ben : Option PassportData)
    (hp : g28PdfStage is_pdf ffo = some (fd, ben)) :
    is_pdf = true ∧ ∃ ff, ffo = some ff ∧ extractPdfFormFields ff = (fd, ben) := by
  unfold g28PdfStage at hp
  by_cases hb : is_pdf = true
  · rw [if_pos hb] at hp
    cases hf : ffo
    · rw [hf] at hp
      exact absurd hp (by simp)
    · rename_i ff
      rw [hf] at hp
      exact ⟨hb, ff, rfl, by simpa using hp⟩
  · rw [if_neg hb] at hp
    exact absurd hp (by simp)

/-- Acceptance step of the representative orchestrator: a form-field pair
whose recomputed confidence strictly exceeds 0.3 is returned with method
`"PDF_FORM_FIELDS"` (g28_extractor.py lines 23-25). -/
theorem g28Extract_accept_eq (is_pdf : Bool)
    (ffo : Option (String → Option String)) (pages : List (Option String))
    (ext : String → AttorneyData) (fd : AttorneyData)
    (ben : Option PassportData)
    (hp : g28PdfStage is_pdf ffo = some (fd, ben))
    (hacc : calculateConfidence fd > (3/10 : ℚ)) :
    g28Extract is_pdf ffo pages ext
      = ({ fd with extraction_method := some "PDF_FORM_FIELDS" }, ben) := by
  obtain ⟨hb, ff, rfl, hff⟩ := g28PdfStage_inv is_pdf ffo fd ben hp
  subst hb
  simp [g28Extract, g28PdfStage, hff, hacc]

/-- Rejection step of the representative orchestrator: a form-field pair
scoring 0.3 or lower is discarded and the OCR stage runs instead
(g28_extractor.py lines 23-39). -/
theorem g28Extract_reject_eq (is_pdf : Bool)
    (ffo : Option (String → Option String)) (pages : List (Option String))
    (ext : String → AttorneyData) (fd : AttorneyData)
    (ben : Option PassportData)
    (hp : g28PdfStage is_pdf ffo = some (fd, ben))
    (hacc : ¬ calculateConfidence fd > (3/10 : ℚ)) :
    g28Extract is_pdf ffo pages ext = g28OcrStage pages ext := by
  obtain ⟨hb, ff, rfl, hff⟩ := g28PdfStage_inv is_pdf ffo fd ben hp
  subst hb
  simp [g28Extract, g28PdfStage, hff, hacc]

/-- When the PDF form-field stage produces nothing, the representative
orchestrator runs the OCR stage. -/
theorem g28Extract_stage_none_eq (is_pdf : Bool)
    (ffo : Option (String → Option String)) (pages : List (Option String))
    (ext : String → AttorneyData)
    (hp : g28PdfStage is_pdf ffo = none) :
    g28Extract is_pdf ffo pages ext = g28OcrStage pages ext := by
  unfold g28Extract
  rw [hp]

/-- The OCR stage of the representative orchestrator never emits a
beneficiary record (g28_extractor.py lines 39 and 41). -/
theorem g28OcrStage_snd (pages : List (Option String))
    (ext : String → AttorneyData) : (g28OcrStage pages ext).2 = none := by
  simp only [g28OcrStage]
  split <;> rfl

/-- A beneficiary record produced by the form-field reader carries the
`"G28_BENEFICIARY"` tag and the fixed confidence 0.5
(g28_extractor.py lines 111-115). -/
theorem extractPdfFormFields_beneficiary (ff : String → Option String)
    (b : PassportData) (h : (extractPdfFormFields ff).2 = some b) :
    b.extraction_method = some "G28_BENEFICIARY" ∧
    b.confidence_score = some (1/2 : ℚ) := by
  simp only [extractPdfFormFields] at h
  by_cases hc : (truthy (beneficiaryFromFormFields ff).last_name
      || truthy (beneficiaryFromFormFields ff).first_name) = true
  · rw [if_pos hc] at h
    obtain rfl : _ = b := by injection h
    exact ⟨rfl, rfl⟩
  · rw [if_neg hc] at h
    exact absurd h (by simp)

/-- The attorney record of the form-field reader has its confidence set
(g28_extractor.py line 117). -/
theorem extractPdfFormFields_conf (ff : String → Option String) :
    (extractPdfFormFields ff).1.confidence_score
      = some (calculateConfidence (repairMobileEmail
          (attorneyFromFormFields ff))) := by
  simp [extractPdfFormFields]

/-- The representative orchestrator always sets method and confidence
together on the attorney record. -/
theorem g28Extract_provenance_set (is_pdf : Bool)
    (ffo : Option (String → Option String)) (pages : List (Option String))
    (ext : String → AttorneyData) :
    (g28Extract is_pdf ffo pages ext).1.extraction_method.isSome = true ∧
    (g28Extract is_pdf ffo pages ext).1.confidence_score.isSome = true := by
  have hocr : (g28OcrStage pages ext).1.extraction_method.isSome = true ∧
      (g28OcrStage pages ext).1.confidence_score.isSome = true := by
    simp only [g28OcrStage]
    split <;> simp [failedAttorney]
  cases hp : g28PdfStage is_pdf ffo with
  | none => rw [g28Extract_stage_none_eq is_pdf ffo pages ext hp]; exact hocr
  | some pr =>
    obtain ⟨fd, ben⟩ := pr
    by_cases hacc : calculateConfidence fd > (3/10 : ℚ)
    · rw [g28Extract_accept_eq is_pdf ffo pages ext fd ben hp hacc]
      obtain ⟨-, ff, -, hff⟩ := g28PdfStage_inv is_pdf ffo fd ben hp
      have hfd : (extractPdfFormFields ff).1 = fd := by rw [hff]
      have hconf := extractPdfFormFields_conf ff
      rw [hfd] at hconf
      simp [hconf]
    · rw [g28Extract_reject_eq is_pdf ffo pages ext fd ben hp hacc]
      exact hocr

/-- The representative orchestrator's beneficiary output comes from the
form-field reader, so it carries the fixed provenance pair. -/
theorem g28Extract_beneficiary (is_pdf : Bool)
    (ffo : Option (String → Option String)) (pages : List (Option String))
    (ext : String → AttorneyData) (b : PassportData)
    (h : (g28Extract is_pdf ffo pages ext).2 = some b) :
    b.extraction_method = some "G28_BENEFICIARY" ∧
    b.confidence_score = some (1/2 : ℚ) := by
  cases hp : g28PdfStage is_pdf ffo with
  | none =>
    rw [g28Extract_stage_none_eq is_pdf ffo pages ext hp,
      g28OcrStage_snd pages ext] at h
    exact absurd h (by simp)
  | some pr =>
    obtain ⟨fd, ben⟩ := pr
    by_cases hacc : calculateConfidence fd > (3/10 : ℚ)
    · rw [g28Extract_accept_eq is_pdf ffo pages ext fd ben hp hacc] at h
      obtain ⟨-, ff, -, hff⟩ := g28PdfStage_inv is_pdf ffo fd ben hp
      apply extractPdfFormFields_beneficiary ff
      rw [hff]
      simpa using h
    · rw [g28Extract_reject_eq is_pdf ffo pages ext fd ben hp hacc,
        g28OcrStage_snd pages ext] at h
      exact absurd h (by simp)

/-- C9: provenance invariant. Every record returned by the passport
orchestrator or the representative orchestrator, and every
beneficiary-derived record the latter emits, has `confidence_score` set if
and only if `extraction_method` is set. -/
theorem provenance_fields_paired (u a co : Bool) (ib ar : Option String)
    (p : String → Option PassportData) (mrz_data : Option PassportData)
    (tess : Bool) (ext : String → PassportData) (pages : List (Option String))
    (is_pdf : Bool) (ffo : Option (String → Option String))
    (pages2 : List (Option String)) (ext2 : String → AttorneyData) :
    ((passportExtract u a co ib ar p mrz_data tess ext pages).confidence_score.isSome
      ↔ (passportExtract u a co ib ar p mrz_data tess ext pages).extraction_method.isSome) ∧
    ((g28Extract is_pdf ffo pages2 ext2).1.confidence_score.isSome
      ↔ (g28Extract is_pdf ffo pages2 ext2).1.extraction_method.isSome) ∧
    (∀ b, (g28Extract is_pdf ffo pages2 ext2).2 = some b →
      (b.confidence_score.isSome ↔ b.extraction_method.isSome)) := by
  refine ⟨?_, ?_, ?_⟩
  · have h := passportExtract_provenance_set u a co ib ar p mrz_data tess ext
      pages
    rw [h.1, h.2]
  · have h := g28Extract_provenance_set is_pdf ffo pages2 ext2
    rw [h.1, h.2]
  · intro b hb
    have h := g28Extract_beneficiary is_pdf ffo pages2 ext2 b hb
    rw [h.1, h.2]
    simp

/-- If some page's OCR text has at least 50 characters and pattern
extraction on it yields a truthy passport number or last name, the OCR
fallback returns a record satisfying the same acceptance guard
(passport_extractor.py lines 193-199, first satisfying page wins). -/
theorem extractViaOcr_succeeds (ext : String → PassportData)
    (pages : List (Option String)) (t : String) (hmem : some t ∈ pages)
    (hlen : 50 ≤ t.length)
    (hacc : (truthy (ext t).passport_number
      || truthy (ext t).last_name) = true) :
    ∃ d, extractViaOcr true ext pages = some d ∧
      (truthy d.passport_number || truthy d.last_name) = true := by
  induction pages with
  | nil => cases hmem
  | cons p rest ih =>
    cases p with
    | none =>
      rcases List.mem_cons.mp hmem with heq | hmem2
      · exact absurd heq (by simp)
      · obtain ⟨d, hd, hg⟩ := ih hmem2
        exact ⟨d, by simpa [extractViaOcr] using hd, hg⟩
    | some text =>
      by_cases hl : 50 ≤ text.length
      · by_cases hg : (truthy (ext text).passport_number
            || truthy (ext text).last_name) = true
        · exact ⟨ext text, by simp [extractViaOcr, hl, hg], hg⟩
        · rcases List.mem_cons.mp hmem with heq | hmem2
          · obtain rfl : t = text := by injection heq
            exact absurd hacc hg
          · obtain ⟨d, hd, hga⟩ := ih hmem2
            refine ⟨d, ?_, hga⟩
            simp only [extractViaOcr, Bool.not_true, Bool.false_eq_true,
              if_false]
            rw [if_pos hl, if_neg hg]
            exact hd
      · rcases List.mem_cons.mp hmem with heq | hmem2
        · obtain rfl : t = text := by injection heq
          exact absurd hlen hl
        · obtain ⟨d, hd, hga⟩ := ih hmem2
          refine ⟨d, ?_, hga⟩
          simp only [extractViaOcr, Bool.not_true, Bool.false_eq_true,
            if_false]
          rw [if_neg hl]
          exact hd

/-- When the MRZ stage has no validated record with a truthy passport
number, the post-LLM pipeline is decided by the OCR fallback
(passport_extractor.py lines 66-79). -/
theorem passportPostLlm_no_mrz (mrz_data : Option PassportData)
    (tess : Bool) (ext : String → PassportData)
    (pages : List (Option String))
    (hmrz : ∀ m, mrz_data = some m → truthy m.passport_number = false) :
    passportPostLlm mrz_data tess ext pages =
      match extractViaOcr tess ext pages with
      | some d => { d with extraction_method := some "OCR+NLP",
                           confidence_score := some (7/10 : ℚ) }
      | none => failedPassport := by
  unfold passportPostLlm
  cases hm : mrz_data with
  | none => rfl
  | some mz => simp [hmrz mz hm]

/-- C1: passport orchestrator fallback ordering. When the LLM stage yields
nothing and the MRZ stage has no validated record with a truthy passport
number, but some page's OCR text has at least 50 characters and pattern
extraction on it yields a passport number or last name, the returned record
carries method `OCR_PATTERN` (source tag `"OCR+NLP"`) with confidence 0.7
and is never the `FAILED` record. -/
theorem passport_ocr_fallback (u a co : Bool) (ib ar : Option String)
    (p : String → Option PassportData) (mrz_data : Option PassportData)
    (ext : String → PassportData) (pages : List (Option String)) (t : String)
    (hllm : passportLlmStage u a co ib ar p = none)
    (hmrz : ∀ m, mrz_data = some m → truthy m.passport_number = false)
    (hmem : some t ∈ pages) (hlen : 50 ≤ t.length)
    (hacc : (truthy (ext t).passport_number
      || truthy (ext t).last_name) = true) :
    (passportExtract u a co ib ar p mrz_data true ext pages).extraction_method
      = some OCR_PATTERN ∧
    (passportExtract u a co ib ar p mrz_data true ext pages).confidence_score
      = some (7/10 : ℚ) ∧
    passportExtract u a co ib ar p mrz_data true ext pages
      ≠ failedPassport := by
  obtain ⟨d, hd, -⟩ := extractViaOcr_succeeds ext pages t hmem hlen hacc
  have hres : passportExtract u a co ib ar p mrz_data true ext pages
      = { d with extraction_method := some "OCR+NLP",
                 confidence_score := some (7/10 : ℚ) } := by
    unfold passportExtract
    rw [hllm]
    show passportPostLlm mrz_data true ext pages = _
    rw [passportPostLlm_no_mrz mrz_data true ext pages hmrz, hd]
  refine ⟨by rw [hres]; rfl, by rw [hres], ?_⟩
  rw [hres]
  intro heq
  have := congrArg PassportData.extraction_method heq
  simp [failedPassport] at this

/-- Witness for C1: the spec's scenario — no LLM, no MRZ, one page of
80-character OCR text from which pattern extraction yields the last name
`"Silva"`: the result is the OCR record, not `FAILED`. -/
theorem passport_ocr_fallback_witness :
    (passportExtract false false false none none (fun _ => none) none true
      (fun _ => { last_name := some "Silva" })
      [some (String.mk (List.replicate 80 'A'))]).extraction_method
      = some OCR_PATTERN ∧
    (passportExtract false false false none none (fun _ => none) none true
      (fun _ => { last_name := some "Silva" })
      [some (String.mk (List.replicate 80 'A'))]).confidence_score
      = some (7/10 : ℚ) ∧
    passportExtract false false false none none (fun _ => none) none true
      (fun _ => { last_name := some "Silva" })
      [some (String.mk (List.replicate 80 'A'))] ≠ failedPassport := by
  exact passport_ocr_fallback false false false none none (fun _ => none)
    none (fun _ => { last_name := some "Silva" })
    [some (String.mk (List.replicate 80 'A'))]
    (String.mk (List.replicate 80 'A')) rfl (fun m h => nomatch h)
    (by simp) (by decide) (by decide)

/-- C6: passport orchestrator LLM acceptance. When the LLM chain is
available end to end and the parsed record has a truthy passport number or
last name, the orchestrator returns exactly that record with the fixed
confidence 0.95 and method `LLM_VISION` (source tag `"LLM_OPENAI"`); and on
any failure or absence of the LLM stage the orchestrator produces the
MRZ-and-later pipeline result. -/
theorem passport_llm_acceptance (img resp : String)
    (parse : String → Option PassportData) (r : PassportData)
    (mrz_data : Option PassportData) (tess : Bool)
    (ext : String → PassportData) (pages : List (Option String))
    (u a co : Bool) (ib ar : Option String)
    (p2 : String → Option PassportData) :
    (parse resp = some r →
      (truthy r.passport_number || truthy r.last_name) = true →
      passportExtract true true true (some img) (some resp) parse mrz_data
          tess ext pages
        = { r with extraction_method := some LLM_VISION,
                   confidence_score := some (19/20 : ℚ) }) ∧
    (passportLlmStage u a co ib ar p2 = none →
      passportExtract u a co ib ar p2 mrz_data tess ext pages
        = passportPostLlm mrz_data tess ext pages) := by
  constructor
  · intro hp hg
    unfold passportExtract passportLlmStage llmExtract
    simp [hp, hg, LLM_VISION]
  · intro h
    unfold passportExtract
    rw [h]

/-- Witness for C6: a parsed LLM record with passport number `"X1"` is
returned with method `LLM_VISION` and confidence 0.95; with the LLM stage
unavailable the result is the post-LLM pipeline's. -/
theorem passport_llm_acceptance_witness :
    passportExtract true true true (some "I") (some "R")
      (fun _ => some { passport_number := some "X1" }) none false
      (fun _ => {}) []
      = { passport_number := some "X1",
          extraction_method := some LLM_VISION,
          confidence_score := some (19/20 : ℚ) } ∧
    passportExtract false false false none none (fun _ => none) none false
      (fun _ => {}) [] = passportPostLlm none false (fun _ => {}) [] := by
  constructor
  · exact ((passport_llm_acceptance "I" "R"
      (fun _ => some { passport_number := some "X1" })
      { passport_number := some "X1" } none false (fun _ => {}) []
      false false false none none (fun _ => none)).1 rfl (by decide)).trans
      rfl
  · exact (passport_llm_acceptance "I" "R"
      (fun _ => some { passport_number := some "X1" })
      { passport_number := some "X1" } none false (fun _ => {}) []
      false false false none none (fun _ => none)).2 rfl

/-- C8: total extraction failure is a normal result. When every strategy of
an orchestrator is exhausted — LLM stage empty, MRZ without a truthy
passport number, OCR fallback empty for the passport side; PDF form-field
stage rejected and no OCR text for the representative side — each
orchestrator returns its well-formed `FAILED` record (method `"FAILED"`,
confidence 0.0, every data field unset); both orchestrators are total
functions, so no exception escapes. -/
theorem failure_is_normal_result (u a co : Bool) (ib ar : Option String)
    (p : String → Option PassportData) (mrz_data : Option PassportData)
    (tess : Bool) (ext : String → PassportData) (pages : List (Option String))
    (is_pdf : Bool) (ffo : Option (String → Option String))
    (pages2 : List (Option String)) (ext2 : String → AttorneyData)
    (hllm : passportLlmStage u a co ib ar p = none)
    (hmrz : ∀ m, mrz_data = some m → truthy m.passport_number = false)
    (hocr : extractViaOcr tess ext pages = none)
    (hpdf : ∀ fd ben, g28PdfStage is_pdf ffo = some (fd, ben) →
      ¬ calculateConfidence fd > (3/10 : ℚ))
    (htext : strEmpty (buildFullText pages2) = true) :
    passportExtract u a co ib ar p mrz_data tess ext pages = failedPassport ∧
    failedPassport = { extraction_method := some "FAILED",
                       confidence_score := some (0 : ℚ) } ∧
    g28Extract is_pdf ffo pages2 ext2 = (failedAttorney, none) ∧
    failedAttorney = { extraction_method := some "FAILED",
                       confidence_score := some (0 : ℚ) } := by
  have hocr2 : g28OcrStage pages2 ext2 = (failedAttorney, none) := by
    unfold g28OcrStage
    rw [if_pos htext]
  refine ⟨?_, rfl, ?_, rfl⟩
  · unfold passportExtract
    rw [hllm]
    show passportPostLlm mrz_data tess ext pages = _
    rw [passportPostLlm_no_mrz mrz_data tess ext pages hmrz, hocr]
  · cases hp : g28PdfStage is_pdf ffo with
    | none => rw [g28Extract_stage_none_eq is_pdf ffo pages2 ext2 hp, hocr2]
    | some pr =>
      obtain ⟨fd, ben⟩ := pr
      rw [g28Extract_reject_eq is_pdf ffo pages2 ext2 fd ben hp
        (hpdf fd ben hp), hocr2]

/-- Witness for C8: with no LLM, no MRZ, no OCR text and no form fields,
both orchestrators return their `FAILED` records. -/
theorem failure_is_normal_result_witness :
    passportExtract false false false none none (fun _ => none) none false
      (fun _ => {}) [] = failedPassport ∧
    g28Extract false none [] (fun _ => {}) = (failedAttorney, none) := by
  have h := failure_is_normal_result false false false none none
    (fun _ => none) none false (fun _ => {}) [] false none []
    (fun _ => {}) rfl (fun m hm => nomatch hm) rfl
    (fun fd ben hp => nomatch hp) (by decide)
  exact ⟨h.1, h.2.2.1⟩

/-- Counterexample to C3 as stated: on a non-PDF input with one page of OCR
text `"hello world"` from which pattern extraction yields an empty record,
the representative orchestrator returns that record with method `"OCR+NLP"`
and confidence 0.0 — a score of 0.3 or lower that is accepted and stored
rather than falling through to `FAILED`. -/
theorem g28_threshold_policy_counterexample :
    (g28Extract false none [some "hello world"]
      (fun _ => {})).1.confidence_score = some (0 : ℚ) ∧
    ¬ ((0 : ℚ) > 3/10) ∧
    (g28Extract false none [some "hello world"]
      (fun _ => {})).1.extraction_method = some "OCR+NLP" ∧
    (g28Extract false none [some "hello world"]
      (fun _ => {})).1.extraction_method ≠ some "FAILED" := by
  have hocr : g28Extract false none [some "hello world"] (fun _ => {})
      = g28OcrStage [some "hello world"] (fun _ => {}) :=
    g28Extract_stage_none_eq false none [some "hello world"] (fun _ => {})
      rfl
  have hconf : calculateConfidence ({} : AttorneyData) = 0 := by
    norm_num [calculateConfidence, truthy]
  have hstage : g28OcrStage [some "hello world"] (fun _ => {})
      = ({ extraction_method := some "OCR+NLP",
           confidence_score := some (0 : ℚ) }, none) := by
    unfold g28OcrStage
    rw [if_neg (by decide)]
    simp [hconf]
  refine ⟨?_, by norm_num, ?_, ?_⟩
  · rw [hocr, hstage]
  · rw [hocr, hstage]
  · rw [hocr, hstage]
    simp

/-- C3 (amended): only the PDF form-field strategy is threshold-gated --
its result is accepted, with method `"PDF_FORM_FIELDS"`, exactly when its
recomputed confidence strictly exceeds 0.3, and otherwise the orchestrator
falls through to the OCR stage; the OCR stage's record is returned with its
computed confidence whenever any OCR text was produced, with no threshold
test, and `FAILED` is returned only when there is no OCR text at all. -/
theorem g28_threshold_policy (is_pdf : Bool)
    (ffo : Option (String → Option String)) (pages : List (Option String))
    (ext : String → AttorneyData) (fd : AttorneyData)
    (ben : Option PassportData) :
    (g28PdfStage is_pdf ffo = some (fd, ben) →
      (calculateConfidence fd > (3/10 : ℚ) →
        g28Extract is_pdf ffo pages ext
          = ({ fd with extraction_method := some "PDF_FORM_FIELDS" }, ben)) ∧
      (¬ calculateConfidence fd > (3/10 : ℚ) →
        g28Extract is_pdf ffo pages ext = g28OcrStage pages ext)) ∧
    (g28PdfStage is_pdf ffo = none →
      g28Extract is_pdf ffo pages ext = g28OcrStage pages ext) ∧
    (strEmpty (buildFullText pages) = false →
      (g28OcrStage pages ext).1.extraction_method = some OCR_PATTERN ∧
      (g28OcrStage pages ext).1.confidence_score
        = some (calculateConfidence (ext (buildFullText pages)))) ∧
    (strEmpty (buildFullText pages) = true →
      g28OcrStage pages ext = (failedAttorney, none)) := by
  refine ⟨fun hp => ⟨fun hacc => ?_, fun hacc => ?_⟩, fun hp => ?_,
    fun he => ?_, fun he => ?_⟩
  · exact g28Extract_accept_eq is_pdf ffo pages ext fd ben hp hacc
  · exact g28Extract_reject_eq is_pdf ffo pages ext fd ben hp hacc
  · exact g28Extract_stage_none_eq is_pdf ffo pages ext hp
  · constructor
    · unfold g28OcrStage
      rw [if_neg (by simp [he])]
      rfl
    · unfold g28OcrStage
      rw [if_neg (by simp [he])]
  · unfold g28OcrStage
    rw [if_pos he]

/-- Witness for C3's amended statement: `g28SampleForm` scores 0.5 > 0.3
and is accepted with method `"PDF_FORM_FIELDS"`; a non-PDF upload falls
through to the OCR stage, whose nonempty-text record carries method
`OCR_PATTERN`; and with no text at all the OCR stage returns the `FAILED`
pair. -/
theorem g28_threshold_policy_witness :
    g28Extract true (some g28SampleForm) [] (fun _ => {})
      = ({ (extractPdfFormFields g28SampleForm).1 with
           extraction_method := some "PDF_FORM_FIELDS" },
          (extractPdfFormFields g28SampleForm).2) ∧
    g28Extract false none [some "x"] (fun _ => {})
      = g28OcrStage [some "x"] (fun _ => {}) ∧
    (g28OcrStage [some "x"] (fun _ => {})).1.extraction_method
      = some OCR_PATTERN ∧
    g28OcrStage [] (fun _ => {}) = (failedAttorney, none) := by
  have h1 : truthy (extractPdfFormFields g28SampleForm).1.last_name
      = true := by decide
  have h2 : truthy (extractPdfFormFields g28SampleForm).1.first_name
      = true := by decide
  have h3 : truthy (extractPdfFormFields g28SampleForm).1.street_address
      = false := by decide
  have h4 : truthy (extractPdfFormFields g28SampleForm).1.city
      = false := by decide
  have h5 : truthy (extractPdfFormFields g28SampleForm).1.state
      = false := by decide
  have h6 : truthy (extractPdfFormFields g28SampleForm).1.email
      = false := by decide
  have hacc : calculateConfidence (extractPdfFormFields g28SampleForm).1
      > (3/10 : ℚ) := by
    rw [calculateConfidence, h1, h2, h3, h4, h5, h6]
    norm_num
  refine ⟨?_, ?_, ?_, ?_⟩
  · exact ((g28_threshold_policy true (some g28SampleForm) [] (fun _ => {})
      (extractPdfFormFields g28SampleForm).1
      (extractPdfFormFields g28SampleForm).2).1 rfl).1 hacc
  · exact (g28_threshold_policy false none [some "x"] (fun _ => {})
      {} none).2.1 rfl
  · exact ((g28_threshold_policy false none [some "x"] (fun _ => {})
      {} none).2.2.1 (by decide)).1
  · exact (g28_threshold_policy false none [] (fun _ => {})
      {} none).2.2.2 (by decide)

/-- Witness for C9: a failed passport run, an accepted G-28 form-field run,
and its emitted beneficiary record all have their two provenance fields set
together. -/
theorem provenance_fields_paired_witness :
    ((passportExtract false false false none none (fun _ => none) none false
        (fun _ => {}) []).confidence_score.isSome
      ↔ (passportExtract false false false none none (fun _ => none) none
        false (fun _ => {}) []).extraction_method.isSome) ∧
    ((g28Extract true (some g28SampleFormBen) []
        (fun _ => {})).1.confidence_score.isSome
      ↔ (g28Extract true (some g28SampleFormBen) []
        (fun _ => {})).1.extraction_method.isSome) ∧
    (({ last_name := some "Doe",
          extraction_method := some "G28_BENEFICIARY",
          confidence_score := some (1/2 : ℚ) } : PassportData).confidence_score.isSome
      ↔ ({ last_name := some "Doe",
            extraction_method := some "G28_BENEFICIARY",
            confidence_score := some (1/2 : ℚ) } : PassportData).extraction_method.isSome) := by
  have h := provenance_fields_paired false false false none none
    (fun _ => none) none false (fun _ => {}) [] true (some g28SampleFormBen)
    [] (fun _ => {})
  have h1 : truthy (extractPdfFormFields g28SampleFormBen).1.last_name
      = true := by decide
  have h2 : truthy (extractPdfFormFields g28SampleFormBen).1.first_name
      = true := by decide
  have h3 : truthy (extractPdfFormFields g28SampleFormBen).1.street_address
      = false := by decide
  have h4 : truthy (extractPdfFormFields g28SampleFormBen).1.city
      = false := by decide
  have h5 : truthy (extractPdfFormFields g28SampleFormBen).1.state
      = false := by decide
  have h6 : truthy (extractPdfFormFields g28SampleFormBen).1.email
      = false := by decide
  have hacc : calculateConfidence (extractPdfFormFields g28SampleFormBen).1
      > (3/10 : ℚ) := by
    rw [calculateConfidence, h1, h2, h3, h4, h5, h6]
    norm_num
  have heq := g28Extract_accept_eq true (some g28SampleFormBen) []
    (fun _ => {}) (extractPdfFormFields g28SampleFormBen).1
    (extractPdfFormFields g28SampleFormBen).2 rfl hacc
  have hb0 : beneficiaryFromFormFields g28SampleFormBen
      = ({ last_name := some "Doe" } : PassportData) := by decide
  have hben : (g28Extract true (some g28SampleFormBen) [] (fun _ => {})).2
      = some { last_name := some "Doe",
               extraction_method := some "G28_BENEFICIARY",
               confidence_score := some (1/2 : ℚ) } := by
    rw [heq]
    show (extractPdfFormFields g28SampleFormBen).2 = _
    simp only [extractPdfFormFields, hb0, truthy]
    rw [if_pos (by decide)]
  exact ⟨h.1, h.2.1, h.2.2 _ hben⟩
